import Mathlib

/-!
Verification of the streaming LLM request lifecycle manager of
nodebook-background (`controllers/llmController.js`).

The controller keeps a class-level `Map` called `activeRequests` from a
request id to `{ abortController, response, userId, startTime }`.  We embed
that map as an association list in insertion order (a JS `Map` iterates in
insertion order, and `Map.set` with a fresh key appends at the end).  The
response object is represented by the two flags the controller reads
(`headersSent`, `writableEnded`); the abort controller by whether invoking
it throws (used only to model the `try/catch` tolerance of the batch stop).
-/

namespace NodebookLLM

/-- One tracked entry of `LLMController.activeRequests`: the value stored by
`addActiveRequest(requestId, abortController, response, userId)` together
with the observable state of its `response` object. -/
structure ActiveRequest where
  ownerId : String
  startTime : Nat
  headersSent : Bool
  writableEnded : Bool
  abortThrows : Bool
deriving DecidableEq, Repr

/-- The `activeRequests` map, in insertion order. -/
abbrev Registry := List (String × ActiveRequest)

/-- `LLMController.addActiveRequest`: `activeRequests.set(requestId, ...)`.
Request ids are fresh uuids, so `Map.set` appends a new key at the end. -/
def addActiveRequest (reg : Registry) (requestId : String) (e : ActiveRequest) : Registry :=
  reg ++ [(requestId, e)]

/-- `activeRequests.get(requestId)`. -/
def lookupActive (reg : Registry) (requestId : String) : Option ActiveRequest :=
  (reg.find? (fun p => p.1 == requestId)).map (·.2)

/-- `LLMController.removeActiveRequest`: `activeRequests.delete(requestId)`. -/
def removeActiveRequest (reg : Registry) (requestId : String) : Registry :=
  reg.filter (fun p => p.1 != requestId)

theorem lookupActive_remove_self (reg : Registry) (rid : String) :
    lookupActive (removeActiveRequest reg rid) rid = none := by
  induction reg with
  | nil => rfl
  | cons a t ih =>
    by_cases h : a.1 = rid
    · have hb : (a.1 != rid) = false := by simp [bne, h]
      simp only [removeActiveRequest, List.filter_cons, hb, Bool.false_eq_true, if_false]
      exact ih
    · have hb : (a.1 != rid) = true := by simp [bne, h]
      have he : (a.1 == rid) = false := by simp [h]
      simp only [removeActiveRequest, List.filter_cons, hb, if_true]
      simp only [lookupActive, List.find?_cons, he]
      exact ih

/-- Outcome of the single-id branch of `LLMController.stop`:
404 (`未找到对应的活动请求`), 403 (`无权停止其他用户的请求`), or the
200 success response carrying the stopped `requestId`. -/
inductive StopOutcome where
  | notFound
  | forbidden
  | stopped (requestId : String)
deriving DecidableEq, Repr

/-- The `if (requestId)` branch of `LLMController.stop` (part_009 lines
493-516): look the entry up; 404 when absent; 403 when
`tracked.userId && String(tracked.userId) !== String(userId)` (a non-empty
stored owner differing from the caller); otherwise abort, write the
`stopped` frame, end the response, and `finally` delete the entry. -/
def stopRequest (reg : Registry) (requestId userId : String) : StopOutcome × Registry :=
  match lookupActive reg requestId with
  | none => (StopOutcome.notFound, reg)
  | some tracked =>
    if tracked.ownerId ≠ "" ∧ tracked.ownerId ≠ userId then
      (StopOutcome.forbidden, reg)
    else
      (StopOutcome.stopped requestId, removeActiveRequest reg requestId)

theorem stopRequest_of_none {reg : Registry} {rid : String} (uid : String)
    (h : lookupActive reg rid = none) :
    stopRequest reg rid uid = (StopOutcome.notFound, reg) := by
  unfold stopRequest
  rw [h]

theorem stopRequest_of_forbidden {reg : Registry} {rid uid : String} {t : ActiveRequest}
    (h : lookupActive reg rid = some t) (hc : t.ownerId ≠ "" ∧ t.ownerId ≠ uid) :
    stopRequest reg rid uid = (StopOutcome.forbidden, reg) := by
  unfold stopRequest
  rw [h]
  exact if_pos hc

theorem stopRequest_of_allowed {reg : Registry} {rid uid : String} {t : ActiveRequest}
    (h : lookupActive reg rid = some t) (hc : t.ownerId = "" ∨ t.ownerId = uid) :
    stopRequest reg rid uid = (StopOutcome.stopped rid, removeActiveRequest reg rid) := by
  unfold stopRequest
  rw [h]
  exact if_neg (by tauto)

/-- C3: for every call `stop(id, requestingOwnerId)` the result is exactly one
of stopped, not-found, or forbidden: not-found exactly when no entry with that
id is in flight, forbidden exactly when the tracked entry's `ownerId` is
non-empty and differs from the caller, and stopped otherwise; no fourth
outcome is ever returned. -/
theorem stop_outcome_trichotomy (reg : Registry) (rid uid : String) :
    ((stopRequest reg rid uid).1 = StopOutcome.notFound ∨
     (stopRequest reg rid uid).1 = StopOutcome.forbidden ∨
     (stopRequest reg rid uid).1 = StopOutcome.stopped rid) ∧
    ((stopRequest reg rid uid).1 = StopOutcome.notFound ↔ lookupActive reg rid = none) ∧
    ((stopRequest reg rid uid).1 = StopOutcome.forbidden ↔
      ∃ t, lookupActive reg rid = some t ∧ t.ownerId ≠ "" ∧ t.ownerId ≠ uid) ∧
    ((stopRequest reg rid uid).1 = StopOutcome.stopped rid ↔
      ∃ t, lookupActive reg rid = some t ∧ (t.ownerId = "" ∨ t.ownerId = uid)) := by
  cases h : lookupActive reg rid with
  | none =>
    rw [stopRequest_of_none uid h]
    simp [h]
  | some t =>
    by_cases hOwn : t.ownerId ≠ "" ∧ t.ownerId ≠ uid
    · rw [stopRequest_of_forbidden h hOwn]
      refine ⟨Or.inr (Or.inl rfl), by simp, ?_, ?_⟩
      · simp only [true_iff]
        exact ⟨t, rfl, hOwn⟩
      · constructor
        · intro hfalse
          exact absurd hfalse (by simp)
        · rintro ⟨t', ht', hcase⟩
          cases Option.some.inj ht'
          tauto
    · have hc : t.ownerId = "" ∨ t.ownerId = uid := by tauto
      rw [stopRequest_of_allowed h hc]
      refine ⟨Or.inr (Or.inr rfl), by simp, ?_, ?_⟩
      · constructor
        · intro hfalse
          exact absurd hfalse (by simp)
        · rintro ⟨t', ht', hcase⟩
          cases Option.some.inj ht'
          tauto
      · simp only [true_iff]
        exact ⟨t, rfl, hc⟩

/-- An entry as registered by `chat`/`chatWithFile` with a given owner and
abort behaviour, used for concrete instances. -/
def demoEntry (o : String) (fail : Bool) : ActiveRequest :=
  { ownerId := o, startTime := 0, headersSent := false, writableEnded := false,
    abortThrows := fail }

/-- A concrete registry: three requests of alice (one whose abort throws),
one of bob and one of carol. -/
def demoReg : Registry :=
  [("a1", demoEntry "alice" false), ("b1", demoEntry "bob" false),
   ("a2", demoEntry "alice" true), ("c1", demoEntry "carol" false),
   ("a3", demoEntry "alice" false)]

/-- C3 witness: `stop("b1")` issued by alice on bob's in-flight request. -/
theorem stop_outcome_trichotomy_witness :
    ((stopRequest demoReg "b1" "alice").1 = StopOutcome.notFound ∨
     (stopRequest demoReg "b1" "alice").1 = StopOutcome.forbidden ∨
     (stopRequest demoReg "b1" "alice").1 = StopOutcome.stopped "b1") ∧
    ((stopRequest demoReg "b1" "alice").1 = StopOutcome.notFound ↔
      lookupActive demoReg "b1" = none) ∧
    ((stopRequest demoReg "b1" "alice").1 = StopOutcome.forbidden ↔
      ∃ t, lookupActive demoReg "b1" = some t ∧ t.ownerId ≠ "" ∧ t.ownerId ≠ "alice") ∧
    ((stopRequest demoReg "b1" "alice").1 = StopOutcome.stopped "b1" ↔
      ∃ t, lookupActive demoReg "b1" = some t ∧ (t.ownerId = "" ∨ t.ownerId = "alice")) :=
  stop_outcome_trichotomy demoReg "b1" "alice"

/-- C6: stopping the same in-flight id twice by its owner returns stopped the
first time and not-found the second, and neither invocation is an error (the
outcome type of the code has no error case on this path; the `finally` block
guarantees the deletion). -/
theorem stop_twice_notFound (reg : Registry) (rid uid : String) (t : ActiveRequest)
    (h : lookupActive reg rid = some t) (hOwn : t.ownerId = "" ∨ t.ownerId = uid) :
    (stopRequest reg rid uid).1 = StopOutcome.stopped rid ∧
    (stopRequest (stopRequest reg rid uid).2 rid uid).1 = StopOutcome.notFound := by
  rw [stopRequest_of_allowed h hOwn]
  refine ⟨rfl, ?_⟩
  rw [stopRequest_of_none uid (lookupActive_remove_self reg rid)]

/-- A registry holding a single anonymous in-flight request. -/
def soloReg : Registry := [("r1", demoEntry "anonymous" false)]

/-- C6 witness: double stop of `"r1"` by the anonymous owner. -/
theorem stop_twice_notFound_witness :
    lookupActive soloReg "r1" = some (demoEntry "anonymous" false) ∧
    ((demoEntry "anonymous" false).ownerId = "" ∨
      (demoEntry "anonymous" false).ownerId = "anonymous") ∧
    ((stopRequest soloReg "r1" "anonymous").1 = StopOutcome.stopped "r1" ∧
     (stopRequest (stopRequest soloReg "r1" "anonymous").2 "r1" "anonymous").1 =
       StopOutcome.notFound) :=
  ⟨rfl, Or.inr rfl,
    stop_twice_notFound soloReg "r1" "anonymous" (demoEntry "anonymous" false) rfl
      (Or.inr rfl)⟩

/-- The `stopAll` branch of `LLMController.stop` (part_009 lines 520-534):
iterate the map in insertion order; for each entry with
`!tracked.userId || String(tracked.userId) === String(userId)` abort it and
end its response inside `try { ... } catch (_) {}`, then delete it and count
it.  Returns `(count, survivors, ids whose abort call ran without throwing)`;
an entry whose abort throws is still deleted and counted (the catch swallows
the failure), which is the batch tolerance of the code. -/
def stopAllOwned (uid : String) : List (String × ActiveRequest) →
    Nat × List (String × ActiveRequest) × List String
  | [] => (0, [], [])
  | (rid, t) :: rest =>
    let r := stopAllOwned uid rest
    if t.ownerId == "" || t.ownerId == uid then
      (r.1 + 1, r.2.1, if t.abortThrows then r.2.2 else rid :: r.2.2)
    else
      (r.1, (rid, t) :: r.2.1, r.2.2)

theorem stopAllOwned_spec (uid : String) (reg : Registry) :
    stopAllOwned uid reg =
      ((reg.filter (fun p => p.2.ownerId == "" || p.2.ownerId == uid)).length,
       reg.filter (fun p => !(p.2.ownerId == "" || p.2.ownerId == uid)),
       (reg.filter (fun p =>
          (p.2.ownerId == "" || p.2.ownerId == uid) && !p.2.abortThrows)).map
         (fun p => p.1)) := by
  induction reg with
  | nil => rfl
  | cons a t ih =>
    obtain ⟨rid, e⟩ := a
    by_cases h : (e.ownerId == "" || e.ownerId == uid) = true
    · have h' : ¬(¬e.ownerId = "" ∧ ¬e.ownerId = uid) := by
        rcases (by simpa using h : e.ownerId = "" ∨ e.ownerId = uid) with h1 | h1 <;> tauto
      by_cases ha : e.abortThrows = true
      · simp [stopAllOwned, List.filter_cons, h, ha, h', ih]
      · simp [stopAllOwned, List.filter_cons, h, h',
          Bool.of_not_eq_true ha, ih]
    · have h' : ¬e.ownerId = "" ∧ ¬e.ownerId = uid := by
        have := (by simpa using h : ¬(e.ownerId = "" ∨ e.ownerId = uid))
        tauto
      simp [stopAllOwned, List.filter_cons, Bool.of_not_eq_true h, h', ih]

/-- C5: for every caller, `stopAll` stops exactly the caller's own in-flight
requests and counts them, leaves requests owned by other users active (in
their original order and untouched), and an abort that throws for one
request does not abort the rest of the batch: the throwing entry is still
counted and removed, only its abort effect is missing.  The hypothesis that
every tracked owner is non-empty holds for every entry the controller
registers, because a missing authenticated user is stored as the non-empty
string `anonymous`. -/
theorem stopAll_stops_exactly_own (uid : String) (reg : Registry)
    (h : ∀ p ∈ reg, p.2.ownerId ≠ "") :
    (stopAllOwned uid reg).1 = (reg.filter (fun p => p.2.ownerId == uid)).length ∧
    (stopAllOwned uid reg).2.1 = reg.filter (fun p => p.2.ownerId != uid) ∧
    (stopAllOwned uid reg).2.2 =
      (reg.filter (fun p => p.2.ownerId == uid && !p.2.abortThrows)).map
        (fun p => p.1) := by
  have hA : reg.filter (fun p => p.2.ownerId == "" || p.2.ownerId == uid) =
      reg.filter (fun p => p.2.ownerId == uid) :=
    List.filter_congr (fun p hp => by
      have hne : (p.2.ownerId == "") = false := by simpa using h p hp
      simp [hne])
  have hB : reg.filter (fun p => !(p.2.ownerId == "" || p.2.ownerId == uid)) =
      reg.filter (fun p => p.2.ownerId != uid) :=
    List.filter_congr (fun p hp => by
      have hne : (p.2.ownerId == "") = false := by simpa using h p hp
      simp [bne, hne])
  have hC : reg.filter (fun p =>
        (p.2.ownerId == "" || p.2.ownerId == uid) && !p.2.abortThrows) =
      reg.filter (fun p => p.2.ownerId == uid && !p.2.abortThrows) :=
    List.filter_congr (fun p hp => by
      have hne : (p.2.ownerId == "") = false := by simpa using h p hp
      simp [hne])
  rw [stopAllOwned_spec, hA, hB, hC]
  exact ⟨rfl, rfl, rfl⟩

/-- C5 witness: alice stops all of her requests in `demoReg`: her three
requests (one of which has a throwing abort) are counted and removed, the
abort effect reaches the two non-throwing ones, and bob's and carol's
requests survive untouched. -/
theorem stopAll_stops_exactly_own_witness :
    (∀ p ∈ demoReg, p.2.ownerId ≠ "") ∧
    ((stopAllOwned "alice" demoReg).1 =
        (demoReg.filter (fun p => p.2.ownerId == "alice")).length ∧
     (stopAllOwned "alice" demoReg).2.1 =
        demoReg.filter (fun p => p.2.ownerId != "alice") ∧
     (stopAllOwned "alice" demoReg).2.2 =
        (demoReg.filter (fun p => p.2.ownerId == "alice" && !p.2.abortThrows)).map
          (fun p => p.1)) :=
  ⟨by decide, stopAll_stops_exactly_own "alice" demoReg (by decide)⟩

/-- `req.user?.userId || 'anonymous'`: the owner recorded for a request (and
the identity used by `stop`) when the authenticated user id is absent or
falsy. -/
def effectiveUserId : Option String → String
  | none => "anonymous"
  | some u => if u == "" then "anonymous" else u

/-- C9: a request created without an authenticated caller identity is owned
by the literal string `anonymous`; the stop owner check therefore passes
between any two unauthenticated callers, so an anonymous caller can stop any
anonymous in-flight request, and an anonymous `stopAll` removes every
anonymous-owned entry, including ones the caller did not create. -/
theorem anonymous_owner_and_cross_stop :
    effectiveUserId none = "anonymous" ∧
    (∀ (reg : Registry) (rid : String) (t : ActiveRequest),
      lookupActive reg rid = some t → t.ownerId = effectiveUserId none →
      (stopRequest reg rid (effectiveUserId none)).1 = StopOutcome.stopped rid) ∧
    (∀ (reg : Registry) (rid : String) (t : ActiveRequest),
      (rid, t) ∈ reg → t.ownerId = "anonymous" →
      (rid, t) ∉ (stopAllOwned (effectiveUserId none) reg).2.1) := by
  refine ⟨rfl, ?_, ?_⟩
  · intro reg rid t h ht
    rw [stopRequest_of_allowed h (Or.inr ht)]
  · intro reg rid t hmem ht hcontra
    rw [stopAllOwned_spec] at hcontra
    have := (List.mem_filter.mp hcontra).2
    rw [ht] at this
    simp [effectiveUserId] at this

/-- C9 witness: the single request of `soloReg` was registered by one
unauthenticated caller (owner `anonymous`); a different unauthenticated
caller stops it successfully, and an anonymous `stopAll` leaves no trace of
it. -/
theorem anonymous_owner_and_cross_stop_witness :
    effectiveUserId none = "anonymous" ∧
    lookupActive soloReg "r1" = some (demoEntry "anonymous" false) ∧
    (demoEntry "anonymous" false).ownerId = effectiveUserId none ∧
    (stopRequest soloReg "r1" (effectiveUserId none)).1 = StopOutcome.stopped "r1" ∧
    ("r1", demoEntry "anonymous" false) ∉
      (stopAllOwned (effectiveUserId none) soloReg).2.1 :=
  ⟨rfl, rfl, rfl,
    anonymous_owner_and_cross_stop.2.1 soloReg "r1" (demoEntry "anonymous" false) rfl rfl,
    anonymous_owner_and_cross_stop.2.2 soloReg "r1" (demoEntry "anonymous" false)
      (by decide) rfl⟩

/-- The fixed maximum age of `cleanupExpiredRequests`: `10 * 60 * 1000` ms. -/
def tenMinutes : Nat := 10 * 60 * 1000

/-- The externally visible actions taken on one tracked entry when it is
terminated: whether its abort controller was invoked, whether a `stopped`
frame was written downstream, and whether its response was ended. -/
structure EntryEffect where
  abortedCtrl : Bool
  wroteStopped : Bool
  endedDownstream : Bool
deriving DecidableEq, Repr

/-- What `cleanupExpiredRequests` does to one expired entry: abort it and,
only `if (!request.response.headersSent)`, end the response; it never writes
any frame. -/
def cleanupEntryEffect (e : ActiveRequest) : EntryEffect :=
  { abortedCtrl := true, wroteStopped := false, endedDownstream := !e.headersSent }

/-- What the single-id branch of `stop` does to an entry that passed the
owner check: abort it and, `if (... && !tracked.response.writableEnded)`,
write a `stopped` frame and end the response. -/
def stopEntryEffect (e : ActiveRequest) : EntryEffect :=
  { abortedCtrl := true, wroteStopped := !e.writableEnded,
    endedDownstream := !e.writableEnded }

/-- `LLMController.cleanupExpiredRequests` (part_009 lines 39-56): iterate
the map; every entry with `now - request.startTime > tenMinutes` is aborted,
its response ended when headers were not yet sent, and deleted, with no
owner check.  Returns the surviving registry and the effects applied to the
reaped entries, in iteration order. -/
def cleanupExpiredRequests (now : Nat) : Registry → Registry × List (String × EntryEffect)
  | [] => ([], [])
  | (rid, e) :: rest =>
    let r := cleanupExpiredRequests now rest
    if now - e.startTime > tenMinutes then (r.1, (rid, cleanupEntryEffect e) :: r.2)
    else ((rid, e) :: r.1, r.2)

/-- C8 (amended): each cleanup run — triggered at the start of every
`chat`/`chatWithFile` request rather than by a timer — force-terminates,
with no owner check, exactly those registry entries whose age exceeds the
fixed ten-minute maximum age, invoking each one's cancellation handle
(ending its response only when headers were not yet sent and writing no
frame), removing them, and leaving every younger entry unchanged in place. -/
theorem cleanup_reaps_exactly_stale (now : Nat) (reg : Registry) :
    (cleanupExpiredRequests now reg).1 =
      reg.filter (fun p => !(decide (now - p.2.startTime > tenMinutes))) ∧
    (cleanupExpiredRequests now reg).2 =
      (reg.filter (fun p => decide (now - p.2.startTime > tenMinutes))).map
        (fun p => (p.1, cleanupEntryEffect p.2)) := by
  induction reg with
  | nil => exact ⟨rfl, rfl⟩
  | cons a t ih =>
    obtain ⟨rid, e⟩ := a
    by_cases h : now - e.startTime > tenMinutes
    · constructor
      · simpa [cleanupExpiredRequests, List.filter_cons, h] using ih.1
      · simpa [cleanupExpiredRequests, List.filter_cons, h] using ih.2
    · constructor
      · simpa [cleanupExpiredRequests, List.filter_cons, h] using ih.1
      · simpa [cleanupExpiredRequests, List.filter_cons, h] using ih.2

/-- A registry with one eleven-minute-old entry and one fresh entry,
observed at `now = 11` minutes. -/
def staleReg : Registry :=
  [("old1", demoEntry "alice" false), ("new1", { demoEntry "bob" false with startTime := 11 * 60 * 1000 })]

/-- C8 witness: at `now` = 11 minutes, cleanup reaps exactly the stale entry
(aborting it, ending its headerless response, writing nothing) and keeps the
fresh one unchanged. -/
theorem cleanup_reaps_exactly_stale_witness :
    (cleanupExpiredRequests (11 * 60 * 1000) staleReg).1 =
      staleReg.filter (fun p => !(decide (11 * 60 * 1000 - p.2.startTime > tenMinutes))) ∧
    (cleanupExpiredRequests (11 * 60 * 1000) staleReg).2 =
      (staleReg.filter (fun p => decide (11 * 60 * 1000 - p.2.startTime > tenMinutes))).map
        (fun p => (p.1, cleanupEntryEffect p.2)) :=
  cleanup_reaps_exactly_stale (11 * 60 * 1000) staleReg

/-- A stale entry in the middle of an SSE stream: headers already sent,
response not yet ended.  This is the typical state of a leaked streaming
request. -/
def midStreamEntry : ActiveRequest :=
  { ownerId := "alice", startTime := 0, headersSent := true, writableEnded := false,
    abortThrows := false }

/-- C8 counterexample: the cleanup sweep does not perform the same stop path
as an external stop.  On a mid-stream entry (headers sent, response still
writable) the stop path writes a `stopped` frame and ends the response,
while the sweep writes nothing and leaves the response open (it ends the
response only when headers were never sent). -/
theorem cleanup_not_same_as_stop_path :
    cleanupEntryEffect midStreamEntry ≠ stopEntryEffect midStreamEntry := by
  decide

/-- The per-request observable state of one streaming `chat` exchange: the
registry membership of its id, the downstream connection (closed or not,
with how many effective close transitions happened), and the abort
controller (fired or not, with how many effective abort transitions
happened). -/
structure LifeState where
  inRegistry : Bool
  downstreamClosed : Bool
  closeCount : Nat
  aborted : Bool
  abortCount : Nat
deriving DecidableEq, Repr

/-- `res.end()` / socket closure: closing an already-closed downstream
connection is a no-op (Node ends the underlying response once). -/
def resEnd (s : LifeState) : LifeState :=
  if s.downstreamClosed then s
  else { s with downstreamClosed := true, closeCount := s.closeCount + 1 }

/-- `abortController.abort()`: firing an already-fired controller is a no-op
(the signal transitions to aborted at most once). -/
def abortCall (s : LifeState) : LifeState :=
  if s.aborted then s
  else { s with aborted := true, abortCount := s.abortCount + 1 }

/-- `LLMController.removeActiveRequest(requestId)`; deleting an absent key
is a no-op. -/
def removeEntry (s : LifeState) : LifeState := { s with inRegistry := false }

/-- The `res.on('close', ...)` handler of `chat` (part_009 lines 120-127):
`if (!abortController.signal.aborted) abortController.abort()`, then remove
the entry.  Node emits `close` on the response once it has finished or its
connection terminated, so this runs after every terminal path. -/
def closeHandler (s : LifeState) : LifeState :=
  removeEntry (if s.aborted then s else abortCall s)

/-- The `response.body.on('end', ...)` handler (part_009 lines 172-175):
`res.end()` then remove the entry.  The `[DONE]` sentinel branch of the data
handler performs the same `end` and removal. -/
def onUpstreamEnd (s : LifeState) : LifeState := removeEntry (resEnd s)

/-- The non-abort branch of `response.body.on('error', ...)` (part_009 lines
177-191): write an error frame and `res.end()` when the response is still
writable, then remove the entry. -/
def onUpstreamErrorOther (s : LifeState) : LifeState := removeEntry (resEnd s)

/-- The `AbortError` branch of `response.body.on('error', ...)`: log only
and remove the entry, never touching the response. -/
def onUpstreamErrorAborted (s : LifeState) : LifeState := removeEntry s

/-- The per-entry cleanup of the single-id `stop` branch (part_009 lines
502-515): abort, then write the `stopped` frame and end the response if it
is not already ended, and `finally` remove the entry. -/
def stopCleanup (s : LifeState) : LifeState :=
  let s1 := abortCall s
  removeEntry (if s1.downstreamClosed then s1 else resEnd s1)

/-- The client disconnecting: the downstream socket closes (once). -/
def clientClose (s : LifeState) : LifeState := resEnd s

/-- The four terminal triggers of a streaming request. -/
inductive TerminalCause where
  | endOfStream
  | upstreamError
  | downstreamClose
  | externalStop
deriving DecidableEq, Repr

/-- The state of a registered request in mid-stream. -/
def streaming0 : LifeState :=
  { inRegistry := true, downstreamClosed := false, closeCount := 0,
    aborted := false, abortCount := 0 }

/-- The handler sequence each terminal cause triggers, in Node's event
order: the handler of the cause itself, then the response `close` event
(emitted once the response has ended or the socket dropped), and — for the
causes that abort the upstream call — the resulting upstream `AbortError`
handler. -/
def runTerminal : TerminalCause → LifeState
  | TerminalCause.endOfStream => closeHandler (onUpstreamEnd streaming0)
  | TerminalCause.upstreamError => closeHandler (onUpstreamErrorOther streaming0)
  | TerminalCause.downstreamClose =>
      onUpstreamErrorAborted (closeHandler (clientClose streaming0))
  | TerminalCause.externalStop =>
      onUpstreamErrorAborted (closeHandler (stopCleanup streaming0))

/-- C4: every terminal path of a streaming request — upstream end-of-stream,
upstream error, downstream close, and external stop — converges to the same
cleanup: the registry entry is removed, the downstream connection is closed
exactly once, and the cancellation handle is invoked exactly once, including
when the terminal cause is the upstream stream ending normally (where the
abort is delivered by the response `close` handler). -/
theorem terminal_paths_converge (c : TerminalCause) :
    (runTerminal c).inRegistry = false ∧ (runTerminal c).downstreamClosed = true ∧
    (runTerminal c).closeCount = 1 ∧ (runTerminal c).aborted = true ∧
    (runTerminal c).abortCount = 1 := by
  cases c <;> exact ⟨rfl, rfl, rfl, rfl, rfl⟩

/-- C4 witness: the normal end-of-stream path, the case the claim singles
out, removes the entry and yields exactly one close and one abort. -/
theorem terminal_paths_converge_witness :
    (runTerminal TerminalCause.endOfStream).inRegistry = false ∧
    (runTerminal TerminalCause.endOfStream).downstreamClosed = true ∧
    (runTerminal TerminalCause.endOfStream).closeCount = 1 ∧
    (runTerminal TerminalCause.endOfStream).aborted = true ∧
    (runTerminal TerminalCause.endOfStream).abortCount = 1 :=
  terminal_paths_converge TerminalCause.endOfStream

/-- Stand-in for the `JSON.parse` / `JSON.stringify` round trip in the data
handler of `chat`: `none` models a parse error (the code's empty `catch`).
It rejects the empty string — `JSON.parse` of an empty string throws — and
otherwise echoes its input; the runs below only ever apply it to the empty
string, where it agrees with the real round trip. -/
def jsonEcho (s : String) : Option String := if s == "" then none else some s

/-- Downstream state of one streaming `chat` exchange: the SSE frames
written so far, whether `res.end()` ran, and whether the id is still in the
registry. -/
structure ChatStreamState where
  written : List String
  ended : Bool
  inRegistry : Bool
deriving DecidableEq, Repr

/-- JS `string.split('\x5cn')` on the character list: always returns at least
one (possibly empty) segment, and a trailing newline yields a trailing empty
segment, exactly like the JS method. -/
def splitNlChars : List Char → List (List Char)
  | [] => [[]]
  | c :: cs =>
    match splitNlChars cs with
    | [] => [[]]
    | seg :: rest => if c = '\n' then [] :: seg :: rest else (c :: seg) :: rest

/-- `chunk.toString().split('\x5cn')`. -/
def splitNl (s : String) : List String := (splitNlChars s.data).map String.mk

/-- The whitespace JS `trim()` removes, restricted to the characters that
occur in this protocol. -/
def isJsWhitespace (c : Char) : Bool := c = ' ' || c = '\n' || c = '\t' || c = '\r'

/-- JS `string.trim()`. -/
def trimJs (s : String) : String :=
  String.mk (((s.data.dropWhile isJsWhitespace).reverse.dropWhile isJsWhitespace).reverse)

/-- JS `line.startsWith('data: ')`. -/
def startsWithData (line : String) : Bool := "data: ".data.isPrefixOf line.data

/-- JS `line.slice(6)`. -/
def sliceFrom6 (line : String) : String := String.mk (line.data.drop 6)

/-- The loop body of `response.body.on('data', ...)` in `chat` (part_009
lines 151-170): for each line of `chunk.toString().split('\x5cn')`, a line
starting with `data: ` is sliced after the six-character prefix; if the
remainder trims to `[DONE]` the sentinel is forwarded, the response ended,
and the entry removed (the handler returns, dropping the rest of the
chunk); otherwise the remainder is parsed and, on success, re-serialized
and forwarded, a parse failure being silently ignored. -/
def processLines (codec : String → Option String) :
    List String → ChatStreamState → ChatStreamState
  | [], st => st
  | line :: rest, st =>
    if startsWithData line then
      let data := sliceFrom6 line
      if trimJs data == "[DONE]" then
        { st with
            written := st.written ++ ["data: [DONE]\n\n"],
            ended := true,
            inRegistry := false }
      else
        match codec data with
        | some j =>
            processLines codec rest
              { st with written := st.written ++ ["data: " ++ j ++ "\n\n"] }
        | none => processLines codec rest st
    else processLines codec rest st

/-- The downstream state right after the `start` frame: nothing forwarded
yet, response open, entry registered. -/
def chatStreamInit : ChatStreamState :=
  { written := [], ended := false, inRegistry := true }

/-- Feed a sequence of physical chunks through the `chat` data handler.
Each chunk is split on newlines independently; the handler holds no buffer
between chunks. -/
def chatStreamRun (codec : String → Option String) (chunks : List String) :
    ChatStreamState :=
  chunks.foldl
    (fun st c => if st.ended then st else processLines codec (splitNl c) st)
    chatStreamInit

/-- C1: the frames the `chat` relay forwards are not invariant under
re-chunking of the same upstream byte stream.  The byte stream
`data: [DONE]\x5cn` delivered as one chunk forwards the `[DONE]` sentinel and
terminates; delivered as the two chunks `data: ` and `[DONE]\x5cn` it forwards
nothing and never terminates, because each chunk is split on newlines in
isolation and the handler keeps no partial-frame buffer across chunks. -/
theorem chat_relay_chunking_dependent :
    chatStreamRun jsonEcho ["data: [DONE]\n"] ≠
      chatStreamRun jsonEcho ["data: ", "[DONE]\n"] := by
  decide

/-- A chat message as validated by the controller. -/
structure ChatMessage where
  role : String
  content : String
deriving DecidableEq, Repr

/-- The per-message validation of `chatWithFile`: `message.role` and
`message.content` truthy and the role one of `system`, `user`,
`assistant`. -/
def messageOk (m : ChatMessage) : Bool :=
  !(m.role == "" || m.content == "") &&
  (m.role == "system" || m.role == "user" || m.role == "assistant")

/-- Outcome of the synchronous prefix of `chatWithFile`: a synchronous
rejection with an HTTP status, or proceeding to the upstream call with the
allocated request id. -/
inductive SetupOutcome where
  | rejected (status : Nat)
  | proceed (requestId : String)
deriving DecidableEq, Repr

/-- The synchronous prefix of `LLMController.chatWithFile` (part_009 lines
243-287), in source order: reject empty or malformed inputs with 400, then
run the expiry sweep, allocate a fresh id and register it via
`addActiveRequest`, and only then check `fs.existsSync(filePath)`,
returning 404 — without removing the fresh entry — when the file is
missing. -/
def chatWithFileSetup (messages : List ChatMessage) (fileName : String)
    (fileExists : Bool) (now : Nat) (freshId uid : String) (reg : Registry) :
    SetupOutcome × Registry :=
  if messages.isEmpty then (SetupOutcome.rejected 400, reg)
  else if fileName == "" then (SetupOutcome.rejected 400, reg)
  else if !(messages.all messageOk) then (SetupOutcome.rejected 400, reg)
  else
    let reg1 := (cleanupExpiredRequests now reg).1
    let reg2 := addActiveRequest reg1 freshId
      { ownerId := uid, startTime := now, headersSent := false,
        writableEnded := false, abortThrows := false }
    if !fileExists then (SetupOutcome.rejected 404, reg2)
    else (SetupOutcome.proceed freshId, reg2)

/-- C2: a `chatWithFile` request with valid messages but a nonexistent file
is rejected synchronously with 404, yet its freshly allocated registry
entry is left behind — the code registers the request before checking the
file and the 404 path does not remove the entry, so the entry survives its
own request's rejection instead of existing only between acceptance and
terminal cleanup. -/
theorem chatWithFile_missing_file_leaks_entry :
    (chatWithFileSetup [ChatMessage.mk "user" "hi"] "missing.txt" false 0 "r1" "u7" []).1 =
      SetupOutcome.rejected 404 ∧
    lookupActive
      (chatWithFileSetup [ChatMessage.mk "user" "hi"] "missing.txt" false 0 "r1" "u7" []).2
      "r1" =
      some { ownerId := "u7", startTime := 0, headersSent := false,
             writableEnded := false, abortThrows := false } := by
  exact ⟨rfl, rfl⟩

/-- The SSE error event written by the non-2xx branch of streaming `chat`
(part_009 lines 138-145): the object
`\x7b error: 'LLM服务错误', details: errorText, requestId \x7d`. -/
structure ChatErrorEvent where
  error : String
  details : String
  requestId : String
deriving DecidableEq, Repr

/-- The non-2xx branch of streaming `chat`: write a single error event
carrying the fixed message, the upstream response body, and the request id;
end the response; remove the entry; return.  The upstream `status` is only
logged to the console and does not flow into the event. -/
def chatStreamNonOk (status : Nat) (errorText requestId : String) (reg : Registry) :
    List ChatErrorEvent × Bool × Registry :=
  ([{ error := "LLM服务错误", details := errorText, requestId := requestId }],
   true, removeActiveRequest reg requestId)

/-- C7 counterexample: the terminal error event does not reference the
upstream status — an upstream 500 and an upstream 502 with the same body
produce identical downstream behaviour, so no reading of the event can
recover the status. -/
theorem upstream_error_event_omits_status :
    chatStreamNonOk 500 "Internal Server Error" "r1" [] =
      chatStreamNonOk 502 "Internal Server Error" "r1" [] := rfl

/-- C7 (amended): if the upstream endpoint responds with a non-2xx status to
a streaming chat request, the client receives a single terminal error event
referencing the request identifier and carrying the upstream response body
(the numeric status itself is only logged server-side, not sent), the
downstream connection is ended, and the registry entry is removed. -/
theorem upstream_error_single_event_and_cleanup (status : Nat)
    (errorText rid : String) (reg : Registry) :
    (chatStreamNonOk status errorText rid reg).1 =
      [{ error := "LLM服务错误", details := errorText, requestId := rid }] ∧
    (chatStreamNonOk status errorText rid reg).2.1 = true ∧
    lookupActive (chatStreamNonOk status errorText rid reg).2.2 rid = none :=
  ⟨rfl, rfl, lookupActive_remove_self reg rid⟩

/-- C7 witness: an upstream 500 with body `boom` against the registry
holding `r1` yields the single error event naming `r1`, an ended response,
and no surviving entry for `r1`. -/
theorem upstream_error_single_event_and_cleanup_witness :
    (chatStreamNonOk 500 "boom" "r1" soloReg).1 =
      [{ error := "LLM服务错误", details := "boom", requestId := "r1" }] ∧
    (chatStreamNonOk 500 "boom" "r1" soloReg).2.1 = true ∧
    lookupActive (chatStreamNonOk 500 "boom" "r1" soloReg).2.2 "r1" = none :=
  upstream_error_single_event_and_cleanup 500 "boom" "r1" soloReg

/-- What `chatWithFile` writes downstream in streaming mode: the initial
`file_info` event, then raw upstream chunks. -/
inductive DownWrite where
  | fileInfo (requestId : String)
  | raw (chunk : String)
deriving DecidableEq, Repr

/-- Events emitted by the upstream response body. -/
inductive UpstreamEvent where
  | chunk (s : String)
  | streamEnd
deriving DecidableEq, Repr

/-- Downstream state of a streaming `chatWithFile` exchange. -/
structure FileStreamState where
  written : List DownWrite
  ended : Bool
  inRegistry : Bool
deriving DecidableEq, Repr

/-- The state right after `chatWithFile` writes the `file_info` event
(part_009 lines 407-412). -/
def fileModeInit (requestId : String) : FileStreamState :=
  { written := [DownWrite.fileInfo requestId], ended := false, inRegistry := true }

/-- The stream handlers of `chatWithFile` (part_009 lines 414-424): the
data handler is `res.write(chunk)` verbatim inside an empty catch — no line
splitting, no `data: ` prefix test, no `[DONE]` test — and the end handler
ends the response and removes the entry. -/
def fileModeStep (st : FileStreamState) : UpstreamEvent → FileStreamState
  | UpstreamEvent.chunk s =>
      if st.ended then st else { st with written := st.written ++ [DownWrite.raw s] }
  | UpstreamEvent.streamEnd => { st with ended := true, inRegistry := false }

/-- Run the `chatWithFile` stream handlers over a sequence of upstream
events. -/
def fileModeRun (requestId : String) (evs : List UpstreamEvent) : FileStreamState :=
  evs.foldl fileModeStep (fileModeInit requestId)

theorem fileModeFold_data (chunks : List String) (st : FileStreamState)
    (h : st.ended = false) :
    (chunks.map UpstreamEvent.chunk).foldl fileModeStep st =
      { st with written := st.written ++ chunks.map DownWrite.raw } := by
  induction chunks generalizing st with
  | nil => simp
  | cons c cs ih =>
    simp only [List.map_cons, List.foldl_cons]
    have hstep : fileModeStep st (UpstreamEvent.chunk c) =
        { st with written := st.written ++ [DownWrite.raw c] } := by
      simp [fileModeStep, h]
    rw [hstep, ih _ (by simp [h])]
    simp

/-- C10: in chat-with-file streaming mode, after the initial `file_info`
event every upstream chunk is forwarded downstream byte-for-byte, with no
frame parsing, no malformed-frame filtering and no `[DONE]` detection (a
chunk equal to the sentinel is forwarded verbatim like any other), and the
downstream response is ended and the entry removed only when the upstream
body emits its `end` event. -/
theorem fileMode_forwards_verbatim (requestId : String) (chunks : List String) :
    (fileModeRun requestId (chunks.map UpstreamEvent.chunk)).written =
      DownWrite.fileInfo requestId :: chunks.map DownWrite.raw ∧
    (fileModeRun requestId (chunks.map UpstreamEvent.chunk)).ended = false ∧
    (fileModeRun requestId (chunks.map UpstreamEvent.chunk)).inRegistry = true ∧
    (fileModeRun requestId (chunks.map UpstreamEvent.chunk ++ [UpstreamEvent.streamEnd])).written =
      DownWrite.fileInfo requestId :: chunks.map DownWrite.raw ∧
    (fileModeRun requestId (chunks.map UpstreamEvent.chunk ++ [UpstreamEvent.streamEnd])).ended = true ∧
    (fileModeRun requestId (chunks.map UpstreamEvent.chunk ++ [UpstreamEvent.streamEnd])).inRegistry = false := by
  have hrun : fileModeRun requestId (chunks.map UpstreamEvent.chunk) =
      { written := DownWrite.fileInfo requestId :: chunks.map DownWrite.raw,
        ended := false, inRegistry := true } := by
    unfold fileModeRun
    rw [fileModeFold_data chunks (fileModeInit requestId) rfl]
    simp [fileModeInit]
  have hrun2 : fileModeRun requestId
      (chunks.map UpstreamEvent.chunk ++ [UpstreamEvent.streamEnd]) =
      { written := DownWrite.fileInfo requestId :: chunks.map DownWrite.raw,
        ended := true, inRegistry := false } := by
    unfold fileModeRun
    rw [List.foldl_append]
    have : (chunks.map UpstreamEvent.chunk).foldl fileModeStep (fileModeInit requestId) =
        { written := DownWrite.fileInfo requestId :: chunks.map DownWrite.raw,
          ended := false, inRegistry := true } := hrun
    rw [this]
    rfl
  rw [hrun, hrun2]
  exact ⟨rfl, rfl, rfl, rfl, rfl, rfl⟩

/-- C10 witness: two concrete chunks, the second being exactly the
`data: [DONE]` sentinel bytes, are both forwarded verbatim after the
`file_info` event, and only the upstream `end` event terminates. -/
theorem fileMode_forwards_verbatim_witness :
    (fileModeRun "r1" (["data: x\n\n", "data: [DONE]\n\n"].map UpstreamEvent.chunk)).written =
      DownWrite.fileInfo "r1" :: ["data: x\n\n", "data: [DONE]\n\n"].map DownWrite.raw ∧
    (fileModeRun "r1" (["data: x\n\n", "data: [DONE]\n\n"].map UpstreamEvent.chunk)).ended = false ∧
    (fileModeRun "r1" (["data: x\n\n", "data: [DONE]\n\n"].map UpstreamEvent.chunk)).inRegistry = true ∧
    (fileModeRun "r1" (["data: x\n\n", "data: [DONE]\n\n"].map UpstreamEvent.chunk ++ [UpstreamEvent.streamEnd])).written =
      DownWrite.fileInfo "r1" :: ["data: x\n\n", "data: [DONE]\n\n"].map DownWrite.raw ∧
    (fileModeRun "r1" (["data: x\n\n", "data: [DONE]\n\n"].map UpstreamEvent.chunk ++ [UpstreamEvent.streamEnd])).ended = true ∧
    (fileModeRun "r1" (["data: x\n\n", "data: [DONE]\n\n"].map UpstreamEvent.chunk ++ [UpstreamEvent.streamEnd])).inRegistry = false :=
  fileMode_forwards_verbatim "r1" ["data: x\n\n", "data: [DONE]\n\n"]

end NodebookLLM
